import Mathlib

/-!
Verification of `system/bta/hfp/bta_hfp_api.cc`.

The source defines a single accessor:

```cpp
  #define DEFAULT_BTA_HFP_VERSION HFP_VERSION_1_7

  int get_default_hfp_version() {
  #ifdef __ANDROID__
    static const int version =
        android::sysprop::bluetooth::Hfp::version().value_or(
            DEFAULT_BTA_HFP_VERSION);
    return version;
  #else
    return DEFAULT_BTA_HFP_VERSION;
  #endif
  }
```

We embed the two preprocessor branches as one Lean function parameterised by
the build configuration.  The Android branch's function-local `static const`
is embedded as explicit state (`ProcState.cache`): `none` means the static has
not yet been constructed, `some v` means it was constructed with value `v`.
The generated sysprop accessor `android::sysprop::bluetooth::Hfp::version()`
returns `std::optional<int32_t>`; a call to it is embedded as reading an
`Option Int` supplied by the environment, and `ProcState.queryCount` counts
how many times that read is actually performed.  `ProcState.rest` stands for
all other program and platform state, to express frame properties.
-/

namespace BtaHfp

/-- Modelled from the spec: the constant `HFP_VERSION_1_7` comes from the
header `bta_hfp_api.h`, which is not among the provided sources.  The spec
describes it as a fixed numeric constant encoding protocol revision "1.7"
(major = 1, minor = 7); we use the conventional encoding `0x0107`.  None of
the proved properties depend on the numeric value, only on its being a fixed
constant. -/
def HFP_VERSION_1_7 : Int := 0x0107

/-- Embeds `#define DEFAULT_BTA_HFP_VERSION HFP_VERSION_1_7`. -/
def DEFAULT_BTA_HFP_VERSION : Int := HFP_VERSION_1_7

/-- The two build configurations distinguished by `#ifdef __ANDROID__`:
`android` is the branch with the sysprop configuration store, `nonAndroid`
the branch without it. -/
inductive Build where
  | android : Build
  | nonAndroid : Build
deriving DecidableEq

/-- Process state relevant to `get_default_hfp_version`.
`cache` is the function-local `static const int version` (`none` while not
yet constructed), `queryCount` counts performed platform-store queries, and
`rest` abstracts every other piece of program/platform state. -/
structure ProcState (σ : Type) where
  cache : Option Int
  queryCount : Nat
  rest : σ
deriving DecidableEq

/-- The state at process start: the static local is not yet constructed and
no platform-store query has happened. -/
def initState (x : σ) : ProcState σ :=
  ⟨none, 0, x⟩

/-- Embedding of `get_default_hfp_version()`.  `prop` is the value the
platform store would answer if queried at this moment (`none` when the
property is absent, the store is unavailable, or its content does not parse
as an integer — the generated accessor returns an empty optional in all of
those cases).  On `android`, a not-yet-constructed static is constructed by
querying the store and applying `value_or(DEFAULT_BTA_HFP_VERSION)`
(`Option.getD`); a constructed static is returned unchanged.  On
`nonAndroid` the compiled-in constant is returned and the state is
untouched. -/
def get_default_hfp_version (b : Build) (prop : Option Int) (s : ProcState σ) :
    Int × ProcState σ :=
  match b with
  | .android =>
    match s.cache with
    | some v => (v, s)
    | none =>
      (prop.getD DEFAULT_BTA_HFP_VERSION,
       { s with cache := some (prop.getD DEFAULT_BTA_HFP_VERSION),
                queryCount := s.queryCount + 1 })
  | .nonAndroid => (DEFAULT_BTA_HFP_VERSION, s)

/-- A sequence of calls to `get_default_hfp_version` within one process.
The list gives, for each call, the platform-store content at the moment of
that call (so the underlying property may change between calls).  Returns
the list of values the calls returned, together with the final state. -/
def runCalls (b : Build) (s : ProcState σ) : List (Option Int) → List Int × ProcState σ
  | [] => ([], s)
  | p :: ps =>
    let c := get_default_hfp_version b p s
    let r := runCalls b c.2 ps
    (c.1 :: r.1, r.2)

theorem cached_call (p : Option Int) (s : ProcState σ) (v : Int)
    (h : s.cache = some v) :
    get_default_hfp_version Build.android p s = (v, s) := by
  simp [get_default_hfp_version, h]

theorem first_call (p : Option Int) (s : ProcState σ) (h : s.cache = none) :
    get_default_hfp_version Build.android p s =
      (p.getD DEFAULT_BTA_HFP_VERSION,
       { s with cache := some (p.getD DEFAULT_BTA_HFP_VERSION),
                queryCount := s.queryCount + 1 }) := by
  simp [get_default_hfp_version, h]

theorem cached_run (v : Int) :
    ∀ (ps : List (Option Int)) (s : ProcState σ), s.cache = some v →
      runCalls Build.android s ps = (List.replicate ps.length v, s) := by
  intro ps
  induction ps with
  | nil => intro s h; rfl
  | cons p ps ih =>
      intro s h
      simp [runCalls, cached_call p s v h, ih s h, List.replicate]

theorem fresh_run (p : Option Int) (ps : List (Option Int)) (s : ProcState σ)
    (h : s.cache = none) :
    runCalls Build.android s (p :: ps) =
      (List.replicate (ps.length + 1) (p.getD DEFAULT_BTA_HFP_VERSION),
       { s with cache := some (p.getD DEFAULT_BTA_HFP_VERSION),
                queryCount := s.queryCount + 1 }) := by
  have hc := cached_run (σ := σ) (p.getD DEFAULT_BTA_HFP_VERSION) ps
    { s with cache := some (p.getD DEFAULT_BTA_HFP_VERSION),
             queryCount := s.queryCount + 1 } rfl
  simp [runCalls, first_call p s h, hc, List.replicate]

theorem nonAndroid_run :
    ∀ (ps : List (Option Int)) (s : ProcState σ),
      runCalls Build.nonAndroid s ps =
        (List.replicate ps.length DEFAULT_BTA_HFP_VERSION, s) := by
  intro ps
  induction ps with
  | nil => intro s; rfl
  | cons p ps ih =>
      intro s
      simp [runCalls, get_default_hfp_version, ih s, List.replicate]

/-- C1: On the build without the configuration store (non-Android), every call
to `get_default_hfp_version` returns the fixed compiled-in constant
`DEFAULT_BTA_HFP_VERSION` (which is `HFP_VERSION_1_7`), and the process state
— in particular the query counter — is left unchanged, so no platform-store
query is ever attempted, independent of call order. -/
theorem C1_nonAndroid_always_default :
    DEFAULT_BTA_HFP_VERSION = HFP_VERSION_1_7 ∧
    ∀ (σ : Type) (ps : List (Option Int)) (s : ProcState σ),
      runCalls Build.nonAndroid s ps =
        (List.replicate ps.length DEFAULT_BTA_HFP_VERSION, s) :=
  ⟨rfl, fun _ ps s => nonAndroid_run ps s⟩

/-- C2: On the Android build, if the property holds no override (the optional
query result is absent) at the time of the first call, then every call in the
process returns `DEFAULT_BTA_HFP_VERSION`, whatever the store holds later. -/
theorem C2_android_no_override_default (σ : Type) (ps : List (Option Int))
    (x : σ) (r : Int)
    (h : r ∈ (runCalls Build.android (initState x) (none :: ps)).1) :
    r = DEFAULT_BTA_HFP_VERSION := by
  rw [fresh_run none ps (initState x) rfl] at h
  exact List.eq_of_mem_replicate h

theorem C2_witness :
    HFP_VERSION_1_7 ∈
      (runCalls Build.android (initState ()) [none, some 9]).1 ∧
    HFP_VERSION_1_7 = DEFAULT_BTA_HFP_VERSION :=
  ⟨by decide,
   C2_android_no_override_default Unit [some 9] () HFP_VERSION_1_7 (by decide)⟩

/-- C3: On the Android build, if the property holds a valid integer override
`V` at the time of the first call, then every call in the process (including
and hence after the first) returns `V`. -/
theorem C3_android_override_returns_value (σ : Type) (V : Int)
    (ps : List (Option Int)) (x : σ) (r : Int)
    (h : r ∈ (runCalls Build.android (initState x) (some V :: ps)).1) :
    r = V := by
  rw [fresh_run (some V) ps (initState x) rfl] at h
  exact List.eq_of_mem_replicate h

theorem C3_witness :
    ((2 : Int) ∈ (runCalls Build.android (initState ()) [some 2, none]).1) ∧
    (2 : Int) = 2 :=
  ⟨by decide,
   C3_android_override_returns_value Unit 2 [none] () 2 (by decide)⟩

/-- C4: Idempotence of the resolved value: within one process, any two values
returned by calls to `get_default_hfp_version` are equal, on either build,
even if the underlying platform property changes between calls — the value is
resolved on first call and never re-read. -/
theorem C4_idempotent (σ : Type) (b : Build) (ps : List (Option Int)) (x : σ)
    (r r' : Int)
    (h : r ∈ (runCalls b (initState x) ps).1)
    (h' : r' ∈ (runCalls b (initState x) ps).1) :
    r = r' := by
  cases b with
  | nonAndroid =>
      rw [nonAndroid_run ps (initState x)] at h h'
      rw [List.eq_of_mem_replicate h, List.eq_of_mem_replicate h']
  | android =>
      cases ps with
      | nil => simp [runCalls] at h
      | cons p ps =>
          rw [fresh_run p ps (initState x) rfl] at h h'
          rw [List.eq_of_mem_replicate h, List.eq_of_mem_replicate h']

theorem C4_witness :
    ((5 : Int) ∈ (runCalls Build.android (initState ()) [some 5, none]).1) ∧
    (5 : Int) = 5 :=
  ⟨by decide,
   C4_idempotent Unit Build.android [some 5, none] () 5 5 (by decide) (by decide)⟩

/-- C5: The platform store is queried at most once per process: any sequence
of calls from the start state performs at most one query, and once the cache
holds a value `v`, any further sequence of calls returns `v` each time and
leaves the state — cache and query counter included — exactly unchanged. -/
theorem C5_query_at_most_once (σ : Type) (x : σ) (ps : List (Option Int)) :
    (runCalls Build.android (initState x) ps).2.queryCount ≤ 1 ∧
    ∀ (s : ProcState σ) (v : Int), s.cache = some v →
      runCalls Build.android s ps = (List.replicate ps.length v, s) := by
  constructor
  · cases ps with
    | nil => simp [runCalls, initState]
    | cons p ps =>
        rw [fresh_run p ps (initState x) rfl]
        simp [initState]
  · exact fun s v h => cached_run v ps s h

theorem C5_witness :
    (runCalls Build.android (initState ()) [some 3, none]).2.queryCount ≤ 1 ∧
    (⟨some 7, 1, ()⟩ : ProcState Unit).cache = some 7 ∧
    runCalls Build.android (⟨some 7, 1, ()⟩ : ProcState Unit) [some 3, none] =
      (List.replicate 2 (7 : Int), ⟨some 7, 1, ()⟩) :=
  ⟨(C5_query_at_most_once Unit () [some 3, none]).1, rfl,
   (C5_query_at_most_once Unit () [some 3, none]).2 ⟨some 7, 1, ()⟩ 7 rfl⟩

/-- C6: The function cannot fail: on every build and every store state it
returns a defined integer; on the build without the store it returns the
default constant, and on the Android build a lookup that yields nothing
(property absent, store unavailable, or parse failure — all surfacing as an
empty optional) silently falls back to `DEFAULT_BTA_HFP_VERSION`. -/
theorem C6_total_fail_open (σ : Type) (b : Build) (prop : Option Int)
    (s : ProcState σ) :
    (∃ (r : Int) (t : ProcState σ), get_default_hfp_version b prop s = (r, t)) ∧
    (get_default_hfp_version Build.nonAndroid prop s).1 =
      DEFAULT_BTA_HFP_VERSION ∧
    (s.cache = none →
      (get_default_hfp_version Build.android none s).1 =
        DEFAULT_BTA_HFP_VERSION) := by
  refine ⟨⟨_, _, rfl⟩, rfl, fun h => ?_⟩
  rw [first_call none s h]
  rfl

theorem C6_witness :
    (initState ()).cache = none ∧
    (get_default_hfp_version Build.android none (initState ())).1 =
      DEFAULT_BTA_HFP_VERSION :=
  ⟨rfl, (C6_total_fail_open Unit Build.android (some 4) (initState ())).2.2 rfl⟩

/-- C8: Frame property: a call changes nothing outside the memoized value —
the `rest` of the world is preserved, the cache only ever changes when it was
uninitialized, the query counter grows by at most one, and when the cache is
already populated the whole state is returned exactly unchanged. -/
theorem C8_no_other_side_effect (σ : Type) (b : Build) (prop : Option Int)
    (s : ProcState σ) :
    (get_default_hfp_version b prop s).2.rest = s.rest ∧
    ((get_default_hfp_version b prop s).2.cache = s.cache ∨ s.cache = none) ∧
    (get_default_hfp_version b prop s).2.queryCount ≤ s.queryCount + 1 ∧
    (∀ v : Int, s.cache = some v → (get_default_hfp_version b prop s).2 = s) := by
  cases b with
  | nonAndroid => exact ⟨rfl, Or.inl rfl, Nat.le_succ _, fun v h => rfl⟩
  | android =>
      cases hc : s.cache with
      | none =>
          rw [first_call prop s hc]
          exact ⟨rfl, Or.inr rfl, le_refl _, fun v h => by simp at h⟩
      | some v =>
          rw [cached_call prop s v hc]
          exact ⟨rfl, Or.inl hc, Nat.le_succ _, fun w h => rfl⟩

theorem C8_witness :
    (get_default_hfp_version Build.android (some 6) (initState ())).2.rest =
      (initState ()).rest ∧
    (⟨some 7, 1, ()⟩ : ProcState Unit).cache = some 7 ∧
    (get_default_hfp_version Build.android (some 6)
        (⟨some 7, 1, ()⟩ : ProcState Unit)).2 = ⟨some 7, 1, ()⟩ :=
  ⟨(C8_no_other_side_effect Unit Build.android (some 6) (initState ())).1, rfl,
   (C8_no_other_side_effect Unit Build.android (some 6) ⟨some 7, 1, ()⟩).2.2.2 7 rfl⟩

/-- C9: The override is not range-validated: on the Android build, whatever
integer `V` the store returns — zero, negative, or one encoding no real HFP
revision — the first call returns `V` as-is, with no clamping or sanity
check. -/
theorem C9_no_range_validation (σ : Type) (V : Int) (s : ProcState σ)
    (h : s.cache = none) :
    (get_default_hfp_version Build.android (some V) s).1 = V := by
  rw [first_call (some V) s h]
  rfl

theorem C9_witness :
    (initState ()).cache = none ∧
    (get_default_hfp_version Build.android (some (-5)) (initState ())).1 = -5 :=
  ⟨rfl, C9_no_range_validation Unit (-5) (initState ()) rfl⟩

/-- C10: Both build branches share the same fallback: the default used by
`value_or` on the store-backed branch is the identical compiled-in constant
`DEFAULT_BTA_HFP_VERSION` (= `HFP_VERSION_1_7`) returned on the branch
without the store, so with no valid override present the result is equal
across the two build configurations, in any states. -/
theorem C10_branches_share_fallback (σ τ : Type) (prop : Option Int)
    (s : ProcState σ) (t : ProcState τ) (h : s.cache = none) :
    DEFAULT_BTA_HFP_VERSION = HFP_VERSION_1_7 ∧
    (get_default_hfp_version Build.android none s).1 =
      (get_default_hfp_version Build.nonAndroid prop t).1 := by
  refine ⟨rfl, ?_⟩
  rw [first_call none s h]
  rfl

theorem C10_witness :
    (initState ()).cache = none ∧
    (get_default_hfp_version Build.android none (initState ())).1 =
      (get_default_hfp_version Build.nonAndroid (some 99) (initState ())).1 :=
  ⟨rfl,
   (C10_branches_share_fallback Unit Unit (some 99) (initState ())
      (initState ()) rfl).2⟩

end BtaHfp
